import Mathlib

/-!
# Verification of the ai-emotion-analyzer core logic

Shallow embedding of the analysis functions of `src/server.js`:

* `analyzeVoiceEmotion` — the keyword-based multi-label emotion detector;
* `processText` — the text statistics summarizer;
* `analyzeTextEmotion` — the wrapper around the external sentiment scorer;
* the `POST /api/text-emotion` request handler.

JavaScript strings are modelled as Lean `String`s; a JavaScript object built
by inserting keys in a fixed order is modelled as an association list, so that
both the key set and per-key values are visible.  The external `sentiment`
library is a black box and enters as a function parameter.
-/

namespace EmotionAnalyzer

/-! ## String primitives

Models of the JavaScript string operations the source uses:
`toLowerCase`, `includes`, `split(/\s+/)`, `split(/[.!?]+/)`, `trim`,
and `toFixed(2)` on a quotient of lengths. -/

/-- ASCII whitespace characters matched by the regex class `\s` (the source
only ever meets ASCII input; Unicode spaces are out of scope). -/
def isWs (c : Char) : Bool :=
  c == ' ' || c == '\t' || c == '\n' || c == '\r' || c == '\x0b' || c == '\x0c'

/-- Sentence-terminator characters of the regex class `[.!?]`. -/
def isSentTerm (c : Char) : Bool :=
  c == '.' || c == '!' || c == '?'

/-- `s.toLowerCase()` (ASCII letters; the keyword table is ASCII). -/
def lowerStr (s : String) : String :=
  String.mk (s.data.map Char.toLower)

/-- Does `hay` start with `needle`?  Helper for the `includes` model. -/
def startsWithList : List Char → List Char → Bool
  | _, [] => true
  | [], _ :: _ => false
  | a :: as, b :: bs => a == b && startsWithList as bs

/-- Does `needle` occur contiguously inside `hay`?  Executable model of
JavaScript `String.prototype.includes`. -/
def containsSub : List Char → List Char → Bool
  | [], needle => needle.isEmpty
  | c :: rest, needle => startsWithList (c :: rest) needle || containsSub rest needle

/-- `s.includes(pat)`. -/
def strIncludes (s pat : String) : Bool :=
  containsSub s.data pat.data

/-- The mathematical substring relation: `needle` occurs contiguously in
`hay`.  Used on the specification side of the substring claims. -/
def SubstringOf (needle hay : List Char) : Prop :=
  ∃ pre post, hay = pre ++ needle ++ post

/-- Splitting a character list on maximal nonempty runs of characters
satisfying `p`, with the semantics of JavaScript
`String.prototype.split(/X+/)`: an empty fragment is kept when the string
begins or ends with a delimiter run, and splitting the empty string yields
one empty fragment. -/
def splitRuns (p : Char → Bool) : List Char → List (List Char)
  | [] => [[]]
  | c :: rest =>
    if p c then
      match rest with
      | [] => [[], []]
      | d :: _ =>
        if p d then splitRuns p rest
        else [] :: splitRuns p rest
    else
      match splitRuns p rest with
      | [] => [[c]]
      | h :: t => (c :: h) :: t

/-- `text.split(/\s+/)`. -/
def jsSplitWS (s : String) : List String :=
  (splitRuns isWs s.data).map String.mk

/-- `text.split(/[.!?]+/)`. -/
def jsSplitSent (s : String) : List String :=
  (splitRuns isSentTerm s.data).map String.mk

/-- `s.trim()` (ASCII whitespace). -/
def jsTrim (s : String) : String :=
  String.mk (((s.data.dropWhile isWs).reverse.dropWhile isWs).reverse)

/-- `(num / den).toFixed(2)` for the non-negative quotient `num / den`,
rendered with exactly two digits after the decimal point (half rounded up;
every claim that mentions this field evaluates it at an exactly
representable quotient, where every rounding convention agrees). -/
def toFixed2 (num den : Nat) : String :=
  let scaled := (num * 100 * 2 + den) / (den * 2)
  let ip := scaled / 100
  let fp := scaled % 100
  toString ip ++ "." ++ (if fp < 10 then "0" else "") ++ toString fp

/-! ## Keyword emotion detector (`analyzeVoiceEmotion`, src/server.js:55-74) -/

/-- The fixed `emotionKeywords` table, in source order. -/
def emotionKeywords : List (String × List String) :=
  [ ("joy", ["happy", "excited", "wonderful", "amazing", "great"]),
    ("sadness", ["sad", "unhappy", "terrible", "awful", "down"]),
    ("anger", ["angry", "furious", "mad", "upset", "irritated"]),
    ("fear", ["scared", "afraid", "terrified", "worried", "anxious"]) ]

/-- `analyzeVoiceEmotion(text)`: lower-case the text once, then map every
category of the table to whether some trigger word occurs in it (JavaScript
`includes`, i.e. substring containment).  The result object is modelled as
an association list in the table's key order. -/
def analyzeVoiceEmotion (text : String) : List (String × Bool) :=
  let lowerText := lowerStr text
  emotionKeywords.map fun entry =>
    (entry.1, entry.2.any fun keyword => strIncludes lowerText keyword)

/-! ## Sentiment wrapper (`analyzeTextEmotion`, src/server.js:46-53) -/

/-- Output of the external `sentiment` library's `analyze` call: an integer
score and a decimal comparative, consumed as a black box. -/
structure SentimentResult where
  score : Int
  comparative : Rat
  deriving DecidableEq

/-- The object returned by `analyzeTextEmotion`. -/
structure TextEmotion where
  score : Int
  comparative : Rat
  emotion : String
  deriving DecidableEq

/-- `analyzeTextEmotion(text)`, parametrised by the external library's
`analyze` function: passes `score` and `comparative` through and labels
`emotion` by the sign of the score. -/
def analyzeTextEmotion (analyze : String → SentimentResult) (text : String) : TextEmotion :=
  let result := analyze text
  { score := result.score
    comparative := result.comparative
    emotion :=
      if result.score > 0 then "positive"
      else if result.score < 0 then "negative"
      else "neutral" }

/-! ## Text statistics summarizer (`processText`, src/server.js:112-122) -/

/-- The object returned by `processText`.  `averageWordLength` is the string
produced by `toFixed(2)`. -/
structure TextStats where
  wordCount : Nat
  sentenceCount : Nat
  averageWordLength : String
  uniqueWords : Nat
  deriving DecidableEq

/-- `processText(text)`: whitespace-split word tokens, sentence fragments
split on runs of `.`, `!`, `?` and filtered to those with nonempty trimmed
content, average word length as total text length over token count, and the
number of distinct lower-cased tokens (a `Set` size in the source). -/
def processText (text : String) : TextStats :=
  let words := jsSplitWS text
  let sentences := jsSplitSent text
  { wordCount := words.length
    sentenceCount := (sentences.filter fun s => 0 < (jsTrim s).length).length
    averageWordLength := toFixed2 text.length words.length
    uniqueWords := ((words.map lowerStr).dedup).length }

/-! ## The `POST /api/text-emotion` handler (src/server.js:153-169) -/

/-- The fields of the handler's success response that the core produces. -/
structure TextEmotionResponse where
  emotion : TextEmotion
  textAnalysis : TextStats
  deriving DecidableEq

/-- The `POST /api/text-emotion` handler of src/server.js.  It destructures
`text` from the body with no coercion (`const { text } = req.body`) and
passes it straight to `analyzeTextEmotion` and `processText`.  An absent or
null `text` field (modelled as `none`) therefore reaches those calls as
`undefined`/`null`, where the first string method invoked on it
(`text.toLowerCase()` inside the sentiment library's tokenizer, or
`text.split` in `processText`) throws a `TypeError`; the surrounding
try/catch turns the throw into a 500 error response, modelled as
`Except.error`. -/
def textEmotionRoute (analyze : String → SentimentResult) (text : Option String) :
    Except String TextEmotionResponse :=
  match text with
  | none => Except.error "TypeError"
  | some t =>
    Except.ok
      { emotion := analyzeTextEmotion analyze t
        textAnalysis := processText t }

/-! ## General lemmas about the string primitives -/

/-- Characterisation of `startsWithList`: `hay` starts with `needle` exactly
when `hay` is `needle` followed by some tail. -/
theorem startsWithList_iff (needle : List Char) : ∀ hay : List Char,
    startsWithList hay needle = true ↔ ∃ t, hay = needle ++ t := by
  induction needle with
  | nil =>
    intro hay
    simp [startsWithList]
  | cons b bs ih =>
    intro hay
    cases hay with
    | nil => simp [startsWithList]
    | cons a as =>
      simp [startsWithList, ih, List.cons.injEq, exists_and_left]

/-- Characterisation of the `includes` model: `containsSub hay needle`
returns `true` exactly when `needle` occurs contiguously inside `hay`. -/
theorem containsSub_iff (hay needle : List Char) :
    containsSub hay needle = true ↔ SubstringOf needle hay := by
  induction hay with
  | nil =>
    cases needle <;> simp [containsSub, SubstringOf]
  | cons c rest ih =>
    simp only [containsSub, Bool.or_eq_true, startsWithList_iff, ih, SubstringOf]
    constructor
    · rintro (⟨t, ht⟩ | ⟨pre, post, h⟩)
      · exact ⟨[], t, by simpa using ht⟩
      · exact ⟨c :: pre, post, by simp [h]⟩
    · rintro ⟨pre, post, h⟩
      cases pre with
      | nil => exact Or.inl ⟨post, by simpa using h⟩
      | cons p ps =>
        rw [List.cons_append, List.cons_append] at h
        injection h with h1 h2
        exact Or.inr ⟨ps, post, h2⟩

/-- `s.includes(pat)` returns `true` exactly when `pat` is a substring of `s`. -/
theorem strIncludes_iff (s pat : String) :
    strIncludes s pat = true ↔ SubstringOf pat.data s.data :=
  containsSub_iff s.data pat.data

/-- The split of any character list on delimiter runs is a nonempty list of
fragments. -/
theorem splitRuns_ne_nil (p : Char → Bool) : ∀ cs : List Char, splitRuns p cs ≠ [] := by
  intro cs
  induction cs with
  | nil => simp [splitRuns]
  | cons c rest ih =>
    rw [splitRuns.eq_def]
    dsimp only
    split
    · cases rest with
      | nil => simp
      | cons d rest2 =>
        dsimp only
        split
        · exact ih
        · simp
    · split
      · simp
      · simp

/-- The whitespace split of any string, the model of `text.split(/\s+/)`,
yields at least one token. -/
theorem jsSplitWS_ne_nil (s : String) : jsSplitWS s ≠ [] := by
  simp only [jsSplitWS, ne_eq, List.map_eq_nil_iff]
  exact splitRuns_ne_nil isWs s.data

/-! ## Claim theorems -/

/-- C1: for every transcript `T` and every category `C` of the fixed table,
the detector result maps `C` to `true` if and only if at least one of the
trigger words of `C` occurs as a substring of the lower-cased `T`. -/
theorem emotion_category_iff_trigger_substring (T C : String) (kws : List String)
    (h : (C, kws) ∈ emotionKeywords) :
    List.lookup C (analyzeVoiceEmotion T) = some true ↔
      ∃ k ∈ kws, SubstringOf k.data (lowerStr T).data := by
  simp only [emotionKeywords, List.mem_cons, List.not_mem_nil, or_false,
    Prod.mk.injEq] at h
  rcases h with ⟨rfl, rfl⟩ | ⟨rfl, rfl⟩ | ⟨rfl, rfl⟩ | ⟨rfl, rfl⟩ <;>
    simp [analyzeVoiceEmotion, emotionKeywords, List.lookup, strIncludes_iff]

/-- Witness for C1: the table membership hypothesis holds at the category
`sadness`, and the equivalence is instantiated at the concrete transcript
`so sad today`. -/
theorem emotion_category_iff_trigger_substring_witness :
    ("sadness", ["sad", "unhappy", "terrible", "awful", "down"]) ∈ emotionKeywords ∧
      (List.lookup "sadness" (analyzeVoiceEmotion "so sad today") = some true ↔
        ∃ k ∈ ["sad", "unhappy", "terrible", "awful", "down"],
          SubstringOf k.data (lowerStr "so sad today").data) :=
  ⟨by decide,
    emotion_category_iff_trigger_substring "so sad today" "sadness"
      ["sad", "unhappy", "terrible", "awful", "down"] (by decide)⟩

/-- C2: for every transcript, the detector result contains exactly the four
keys `joy`, `sadness`, `anger`, `fear`, in that order, each mapped to a
boolean (the value type of the association list), even when the value is
`false`. -/
theorem emotion_result_keys (T : String) :
    (analyzeVoiceEmotion T).map Prod.fst = ["joy", "sadness", "anger", "fear"] := rfl

/-- C3 counterexample: contrary to the claim, the detector applied to
`unhappiness` does not map `sadness` to `true` — the trigger word `unhappy`
is not a substring of `unhappiness` (the seventh characters differ: `y`
against `i`), and no other sadness trigger occurs. -/
theorem unhappiness_sadness_not_true :
    (List.lookup "sadness" (analyzeVoiceEmotion "unhappiness") = some true) = False :=
  eq_false (by decide)

/-- C3 amended: the detector applied to `unhappiness` maps `sadness` to
`false`. -/
theorem unhappiness_sadness_false :
    List.lookup "sadness" (analyzeVoiceEmotion "unhappiness") = some false := by decide

/-- C4: the detector is case-insensitive on the given example — the results
for `HAPPY day` and `happy day` are equal, and both are
`joy:true, sadness:false, anger:false, fear:false`. -/
theorem detector_case_insensitive_happy_day :
    analyzeVoiceEmotion "HAPPY day" = analyzeVoiceEmotion "happy day" ∧
      analyzeVoiceEmotion "happy day" =
        [("joy", true), ("sadness", false), ("anger", false), ("fear", false)] := by
  decide

/-- C5: the detector applied to the empty transcript yields `false` for all
four categories. -/
theorem detector_empty_all_false :
    analyzeVoiceEmotion "" =
      [("joy", false), ("sadness", false), ("anger", false), ("fear", false)] := by
  decide

/-- C6: evaluation of the handler at the failing input.  When the `text`
field of the body is absent or null, the src/server.js handler does not
coerce it to the empty string: the missing value reaches the components,
the resulting throw is caught, and the handler produces the error response
— it does not produce the success response obtained from the components on
the empty string.  This contradicts the claim, which requires coercion at
the boundary. -/
theorem textRoute_absent_text_errors (analyze : String → SentimentResult) :
    textEmotionRoute analyze none = Except.error "TypeError" := rfl

/-- C7: the text statistics of `Hello world. How are you?` are
`wordCount = 5`, `sentenceCount = 2` and `uniqueWords = 5`. -/
theorem processText_hello_world_stats :
    (processText "Hello world. How are you?").wordCount = 5 ∧
      (processText "Hello world. How are you?").sentenceCount = 2 ∧
      (processText "Hello world. How are you?").uniqueWords = 5 := by
  decide

/-- C8: the text statistics of the empty transcript have `wordCount = 1`
(the whitespace split of the empty string yields one empty token) and
`averageWordLength` rendered as the two-decimal string `0.00`. -/
theorem processText_empty_stats :
    (processText "").wordCount = 1 ∧
      (processText "").averageWordLength = "0.00" := by
  decide

/-- C9: for every transcript, the whitespace split is nonempty, so
`wordCount` is at least `1` and the division computing the average word
length never has a zero divisor. -/
theorem processText_wordCount_pos (text : String) :
    jsSplitWS text ≠ [] ∧ 1 ≤ (processText text).wordCount := by
  have h := jsSplitWS_ne_nil text
  exact ⟨h, List.length_pos.mpr h⟩

/-- C10: for every input text and every external `analyze` function, the
`emotion` label of `analyzeTextEmotion` is `positive` exactly when the
external score is greater than `0`, `negative` exactly when it is less than
`0`, and `neutral` exactly when it equals `0`; `score` and `comparative`
are passed through unchanged. -/
theorem analyzeTextEmotion_label_of_score (analyze : String → SentimentResult) (text : String) :
    ((analyzeTextEmotion analyze text).emotion = "positive" ↔ 0 < (analyze text).score) ∧
      ((analyzeTextEmotion analyze text).emotion = "negative" ↔ (analyze text).score < 0) ∧
      ((analyzeTextEmotion analyze text).emotion = "neutral" ↔ (analyze text).score = 0) ∧
      (analyzeTextEmotion analyze text).score = (analyze text).score ∧
      (analyzeTextEmotion analyze text).comparative = (analyze text).comparative := by
  have hpn : ("positive" : String) ≠ "negative" := by decide
  have hpu : ("positive" : String) ≠ "neutral" := by decide
  have hnu : ("negative" : String) ≠ "neutral" := by decide
  refine ⟨?_, ?_, ?_, rfl, rfl⟩ <;>
    simp only [analyzeTextEmotion] <;>
      split_ifs with h1 h2 <;> simp_all <;> omega

end EmotionAnalyzer
